import Mathlib

/-!
Verification of the go-webconnector library against its specification.

The development shallowly embeds the three Go packages of the repository:

* `request`   — the request builder (`request/request.go`, `request/methods.go`);
* `connector` — the connector (`connector/client.go`);
* `responder` — the strict response dispatcher (package `responder`);
* `response`  — the legacy lenient response dispatcher (package `response`).

Modelling conventions, fixed once here:

* Go `error` values are modelled by their message string (`Err`); a `nil`
  error is `Option.none`.
* Go maps are modelled as association lists: `mapGet` is the comma-ok read,
  `mapSet` replaces the value of an existing key in place and otherwise
  appends.  Go's map iteration order is unspecified; the list order is the
  deterministic order this model iterates in.  No property proved below
  depends on the iteration order across distinct keys.
* `fmt.Sprint` of an `interface{}` argument is applied by the caller of the
  model: option parameters that Go takes as `interface{}` are taken here as
  the already-printed `String`.
* `io.Reader` bodies and `io.ReadCloser` body streams are modelled by their
  contents as a `String`.
* `json.Marshal`/`xml.Marshal` are external encoding libraries (out of scope
  per the specification); the corresponding body options are parametrized by
  the marshaller's outcome `Except Err String`.
* `http.Header.Add` MIME-canonicalizes the key; canonicalization is not
  modelled (every header key appearing in this development is already in
  canonical form).
* URL parsing inside `http.NewRequest` is not modelled; the `Request.url`
  field is exactly the string the Go code assembles and hands to
  `http.NewRequest`.
-/

/-- A Go `error` value, modelled by its message. -/
abbrev Err := String

/-- Go map read with the comma-ok idiom: `v, ok := m[k]`. -/
def mapGet [BEq κ] (m : List (κ × α)) (k : κ) : Option α :=
  match m.find? (fun p => p.1 == k) with
  | some p => some p.2
  | none => none

/-- Go map write `m[k] = v`: replaces the entry of an existing key in place,
otherwise appends a new entry. -/
def mapSet [BEq κ] : List (κ × α) → κ → α → List (κ × α)
  | [], k, v => [(k, v)]
  | (k', v') :: rest, k, v =>
    if k' == k then (k, v) :: rest else (k', v') :: mapSet rest k v

/-- The Go idiom shared by `WithHeader`/`WithQuery`/`Header.Add`:
if the key is present append the value to its slice, otherwise create a
singleton slice. -/
def addMulti (m : List (String × List String)) (k v : String) : List (String × List String) :=
  match mapGet m k with
  | some vs => mapSet m k (vs ++ [v])
  | none => mapSet m k [v]

namespace request

/-- One step of `strings.ReplaceAll`, on character lists, with fuel.
Replaces leftmost non-overlapping occurrences of `pat` by `rep`.
The fuel is the length of the subject string; every step consumes at least
one character when `pat` is nonempty, so the fuel never runs out in
`replaceAll` below. -/
def replaceSeg (pat rep : List Char) : Nat → List Char → List Char
  | 0, s => s
  | _ + 1, [] => []
  | n + 1, c :: rest =>
    if pat.isPrefixOf (c :: rest) then
      rep ++ replaceSeg pat rep n ((c :: rest).drop pat.length)
    else
      c :: replaceSeg pat rep n rest

/-- `strings.ReplaceAll s pat rep`.  The empty-pattern case (where Go would
interleave `rep` between characters) never arises in this code base: the
builder only ever replaces `":" ++ key`, which is nonempty. -/
def replaceAll (s pat rep : String) : String :=
  if pat = "" then s else String.mk (replaceSeg pat.data rep.data s.data.length s.data)

/-- The `Builder` struct of `request/request.go`.  The context is modelled by
its presence (`r.ctx != nil`). -/
structure Builder where
  hasContext : Bool := false
  method : String := "GET"
  protocol : String := "http"
  host : String := ""
  path : String := ""
  params : List (String × String) := []
  headers : List (String × List String) := []
  queries : List (String × List String) := []
  body : Option String := none
deriving Repr, DecidableEq

/-- The initial builder of `request.New`: method GET, protocol http, empty
maps, no body, no context. -/
def initBuilder (host : String) : Builder := { host := host }

/-- The functional option type `Option func(*Builder) error` of the builder
(named `Opt` here to avoid clashing with Lean's `Option`). -/
abbrev Opt := Builder → Except Err Builder

/-- `request.WithProtocol`. -/
def WithProtocol (protocol : String) : Opt :=
  fun r => .ok { r with protocol := protocol }

/-- `request.WithMethod`. -/
def WithMethod (method : String) : Opt :=
  fun r => .ok { r with method := method }

/-- `request.WithPath`. -/
def WithPath (path : String) : Opt :=
  fun r => .ok { r with path := path }

/-- `request.WithParam`: `r.params[key] = fmt.Sprint(value)`. -/
def WithParam (key value : String) : Opt :=
  fun r => .ok { r with params := mapSet r.params key value }

/-- `request.WithHeader`: appends to the key's slice if present, otherwise
creates a singleton slice. -/
def WithHeader (key value : String) : Opt :=
  fun r => .ok { r with headers := addMulti r.headers key value }

/-- `request.WithQuery`: same append-or-create idiom as `WithHeader`. -/
def WithQuery (key value : String) : Opt :=
  fun r => .ok { r with queries := addMulti r.queries key value }

/-- `request.WithString`: sets the body from a string.  Note that the Go
source sets only `r.body`; it touches no header. -/
def WithString (body : String) : Opt :=
  fun r => .ok { r with body := some body }

/-- `request.WithJson`, parametrized by the outcome of the external
`json.Marshal` call: on success it assigns
`r.headers["Content-Type"] = ["application/json"]` (a map write replacing any
previous slice) and sets the body to the marshalled bytes; a marshalling
error aborts the option. -/
def WithJson (marshalled : Except Err String) : Opt :=
  fun r =>
    match marshalled with
    | .error e => .error e
    | .ok b =>
      .ok { r with headers := mapSet r.headers "Content-Type" ["application/json"],
                   body := some b }

/-- `request.WithXml`, parametrized by the outcome of the external
`xml.Marshal` call; same shape as `WithJson` with `application/xml`. -/
def WithXml (marshalled : Except Err String) : Opt :=
  fun r =>
    match marshalled with
    | .error e => .error e
    | .ok b =>
      .ok { r with headers := mapSet r.headers "Content-Type" ["application/xml"],
                   body := some b }

/-- The query-string assembly loop of `build`: each value of each key emits
`key=value`, the first pair is prefixed with `?`, later ones with `&`. -/
def queryString (queries : List (String × List String)) : String :=
  queries.foldl
    (fun q kv =>
      kv.2.foldl (fun q qv => (if q = "" then "?" else q ++ "&") ++ kv.1 ++ "=" ++ qv) q)
    ""

/-- The path-resolution loop of `build`:
`for k, v := range r.params { p = strings.ReplaceAll(p, ":"+k, v) }`. -/
def resolvePath (path : String) (params : List (String × String)) : String :=
  params.foldl (fun p kv => replaceAll p (":" ++ kv.1) kv.2) path

/-- The outcome of `build`: the fields of the constructed `*http.Request`
that this development observes. -/
structure Request where
  method : String
  url : String
  headers : List (String × List String)
  hasContext : Bool
  body : Option String
deriving Repr, DecidableEq

/-- `req.Header.Add(k, hv)` (MIME canonicalization of the key not
modelled). -/
def headerAdd (req : Request) (k v : String) : Request :=
  { req with headers := addMulti req.headers k v }

/-- The header-application loop at the end of `build`. -/
def addHeaders (req : Request) (hs : List (String × List String)) : Request :=
  hs.foldl (fun req kv => kv.2.foldl (fun req hv => headerAdd req kv.1 hv) req) req

/-- `request.build`: assembles the query string, resolves the path, composes
the URL `protocol://host path query`, constructs the request (with the
context bound when present) and applies the accumulated headers. -/
def build (r : Builder) : Except Err Request :=
  let q := queryString r.queries
  let p := resolvePath r.path r.params
  let url := r.protocol ++ "://" ++ r.host ++ p ++ q
  let req : Request :=
    { method := r.method, url := url, headers := [], hasContext := r.hasContext,
      body := r.body }
  .ok (addHeaders req r.headers)

/-- The option-application loop of `request.New`: abort on the first option
that returns an error. -/
def applyOpts : List Opt → Builder → Except Err Builder
  | [], r => .ok r
  | o :: rest, r =>
    match o r with
    | .error e => .error e
    | .ok r' => applyOpts rest r'

/-- `request.New`: initialize the builder with defaults, apply the options in
order, then `build`. -/
def New (host : String) (options : List Opt) : Except Err Request :=
  match applyOpts options (initBuilder host) with
  | .error e => .error e
  | .ok r => build r

end request

namespace connector

/-- The fields of an `*http.Response` this development observes: the status
code and the body stream's contents. -/
structure HttpResponse where
  statusCode : Int
  body : String
deriving Repr, DecidableEq

/-- The `WebClient` interface: `Do(*http.Request) (*http.Response, error)`.
Either component of the Go pair may be nil. -/
abbrev Transport := request.Request → Option HttpResponse × Option Err

/-- The `Responder` interface of the connector:
`Respond(*http.Response) error` (the `*http.Response` may be nil). -/
abbrev RespondFn := Option HttpResponse → Option Err

/-- The `Connector` struct of `connector/client.go`.  The default values are
the Go zero values: empty host, nil slices/maps, nil `webClient`
interface. -/
structure Connector where
  host : String := ""
  generalOption : List request.Opt := []
  pathOptions : List (String × List request.Opt) := []
  webClient : Option Transport := none

/-- The zero value `Connector{}` returned by `New` when an option fails. -/
def zeroConnector : Connector := {}

/-- The functional option type `Option func(*Connector) error` of the
connector. -/
abbrev COpt := Connector → Except Err Connector

/-- `connector.WithGeneral`: appends to the general options. -/
def WithGeneral (o : List request.Opt) : COpt :=
  fun c => .ok { c with generalOption := c.generalOption ++ o }

/-- `connector.WithPath`: `c.pathOptions[path] = o`. -/
def WithPath (path : String) (o : List request.Opt) : COpt :=
  fun c => .ok { c with pathOptions := mapSet c.pathOptions path o }

/-- `connector.WithPaths`: replaces the whole path-option map. -/
def WithPaths (po : List (String × List request.Opt)) : COpt :=
  fun c => .ok { c with pathOptions := po }

/-- The option-application loop of `connector.New`: on the first failing
option, return the zero-value `Connector{}` together with the error. -/
def applyCOpts : List COpt → Connector → Connector × Option Err
  | [], c => (c, none)
  | o :: rest, c =>
    match o c with
    | .error e => (zeroConnector, some e)
    | .ok c' => applyCOpts rest c'

/-- `connector.New`: initializes the connector with the host, empty option
collections and the client, then applies the construction options. -/
def New (host : String) (client : Transport) (options : List COpt) : Connector × Option Err :=
  applyCOpts options { host := host, webClient := some client }

/-- `connector.Do`: invoke the web client; a transport error is returned as
is, otherwise the responder handles the response.  (Calling `Do` on a
connector whose `webClient` interface is nil would panic in Go; the panic is
modelled by a distinguished error and is never reached in this
development.) -/
def Do (c : Connector) (req : request.Request) (responder : RespondFn) : Option Err :=
  match c.webClient with
  | none => some "runtime error: invalid memory address or nil pointer dereference"
  | some t =>
    let r := t req
    match r.2 with
    | some e => some e
    | none => responder r.1

/-- The option list assembled by the first half of `connector.DoBuild`
(its `reqOptions` variable): the path literal, then the general options,
then — when the path is mapped — the path-default options, then the per-call
options. -/
def reqOptionsOf (c : Connector) (path : String) (options : List request.Opt) : List request.Opt :=
  let reqOptions := [request.WithPath path]
  let reqOptions := reqOptions ++ c.generalOption
  let reqOptions :=
    match mapGet c.pathOptions path with
    | some pathDefaultOption => reqOptions ++ pathDefaultOption
    | none => reqOptions
  reqOptions ++ options

/-- `connector.DoBuild`: build the request from the assembled options,
propagate a build error, otherwise delegate to `Do`. -/
def DoBuild (c : Connector) (path : String) (responder : RespondFn) (options : List request.Opt) : Option Err :=
  match request.New c.host (reqOptionsOf c path options) with
  | .error e => some e
  | .ok req => Do c req responder

end connector

namespace responder

/-- `responder.BodyParser`: `func(io.ReadCloser) (any, error)`.  The body
stream is modelled by its contents; the `any` result and the error may each
be nil. -/
abbrev BodyParser (α : Type) := String → Option α × Option Err

/-- The `Responder` struct of the `responder` package. -/
structure Responder (α : Type) where
  responders : List (Int × BodyParser α) := []
  defResponder : Option (BodyParser α) := none

/-- The `Response` struct of the `responder` package; the defaults are the Go
zero values (`Status` 0, nil `Body`, nil `HttpResponse`, nil `Err`). -/
structure Response (α : Type) where
  status : Int := 0
  body : Option α := none
  httpResponse : Option connector.HttpResponse := none
  err : Option Err := none

/-- `responder.ErrNoHttpResponse`. -/
def ErrNoHttpResponse : Err := "connector/responder: no http response"

/-- `responder.ErrNoResponseHandler`. -/
def ErrNoResponseHandler : Err := "connector/responder: no response handler"

/-- The option type `Option func(*Responder)` of the `responder` package. -/
abbrev ROpt (α : Type) := Responder α → Responder α

/-- `responder.For`: registers a parser for a specific status. -/
def For (status : Int) (f : BodyParser α) : ROpt α :=
  fun r => { r with responders := mapSet r.responders status f }

/-- `responder.Default`: registers the default parser. -/
def Default (f : BodyParser α) : ROpt α :=
  fun r => { r with defResponder := some f }

/-- `responder.Status`: registers a parser that does nothing for the
status. -/
def Status (status : Int) : ROpt α :=
  fun r => { r with responders := mapSet r.responders status (fun _ => (none, none)) }

/-- `responder.New`: starts from the empty table and applies the options. -/
def New (options : List (ROpt α)) : Responder α :=
  options.foldl (fun r o => o r) {}

/-- `(*Responder).Respond` of the `responder` package: nil response yields
`ErrNoHttpResponse`; a parser registered for the exact status is applied to
the body and its output wrapped together with the status and the raw
response; otherwise the default parser, when set, is applied the same way;
otherwise `ErrNoResponseHandler`. -/
def Respond (r : Responder α) (res : Option connector.HttpResponse) : Response α :=
  match res with
  | none => { err := some ErrNoHttpResponse }
  | some res =>
    match mapGet r.responders res.statusCode with
    | some f =>
      let be := f res.body
      { status := res.statusCode, httpResponse := some res, body := be.1, err := be.2 }
    | none =>
      match r.defResponder with
      | some f =>
        let be := f res.body
        { status := res.statusCode, httpResponse := some res, body := be.1, err := be.2 }
      | none => { err := some ErrNoResponseHandler }

end responder

namespace response

/-- The `Response` struct of the legacy `response` package: it wraps only the
raw response handle. -/
structure Response where
  httpResponse : connector.HttpResponse

/-- `response.Func`: `func(Response) error`. -/
abbrev Func := Response → Option Err

/-- The `Responder` struct of the legacy `response` package. -/
structure Responder where
  responders : List (Int × Func) := []
  defResponder : Option Func := none

/-- The option type `Option func(*Responder) error` of the `response`
package. -/
abbrev ROpt := Responder → Except Err Responder

/-- `response.For`. -/
def For (status : Int) (f : Func) : ROpt :=
  fun r => .ok { r with responders := mapSet r.responders status f }

/-- `response.ForDefault`. -/
def ForDefault (f : Func) : ROpt :=
  fun r => .ok { r with defResponder := some f }

/-- `(*Responder).Respond` of the legacy `response` package: a nil response
returns nil (no error); a handler registered for the exact status — or
failing that the default handler — is invoked on the wrapped response;
with no matching handler and no default it returns nil. -/
def Respond (r : Responder) (res : Option connector.HttpResponse) : Option Err :=
  match res with
  | none => none
  | some res =>
    match mapGet r.responders res.statusCode with
    | some f => f { httpResponse := res }
    | none =>
      match r.defResponder with
      | some f => f { httpResponse := res }
      | none => none

end response

/-!
Specification-side definitions.

The specification (§4.1 step 3) words path resolution as substituting "the
URL-escaped string representation of the parameter value".  The following
definitions are the specification's wording, for comparison with the
source-derived `request.resolvePath`; they are not part of the source
embedding.
-/

/-- Upper-case hexadecimal digit of `n < 16`. -/
def hexDigit (n : Nat) : Char :=
  if n < 10 then Char.ofNat (48 + n) else Char.ofNat (55 + n)

/-- Percent-escaping of one character: RFC 3986 unreserved characters pass
through, everything else becomes `%XX` (in particular a question mark becomes
`%3F`, as every URL-escaping function must escape it inside a path). -/
def escapeChar (c : Char) : List Char :=
  if c.isAlphanum ∨ c = '-' ∨ c = '.' ∨ c = '_' ∨ c = '~' then [c]
  else ['%', hexDigit (c.toNat / 16 % 16), hexDigit (c.toNat % 16)]

/-- URL-escaping of a string, character by character. -/
def urlEscape (s : String) : String :=
  String.mk (s.data.foldr (fun c acc => escapeChar c ++ acc) [])

/-- Path resolution as the specification words it: every `:key` token
matching a registered parameter is replaced by the URL-escaped string
representation of the parameter value. -/
def resolvePathSpec (path : String) (params : List (String × String)) : String :=
  params.foldl (fun p kv => request.replaceAll p (":" ++ kv.1) (urlEscape kv.2)) path

/-!
Concrete fixtures shared by the theorems below.
-/

/-- A transport that fails every call with a recognizable error: its error
surfacing proves the transport was invoked. -/
def tracingTransport : connector.Transport := fun _ => (none, some "transport invoked")

/-- A transport that returns neither response nor error. -/
def silentTransport : connector.Transport := fun _ => (none, none)

/-- A responder function that reports no error. -/
def okResponder : connector.RespondFn := fun _ => none

/-- A connector with no mapped paths, wired to `tracingTransport`. -/
def noPathConnector : connector.Connector :=
  { host := "h", webClient := some tracingTransport }

/-- The connector of the precedence scenario: a general option adding header
`H=1` and a path-default option on `/p` adding `H=2`. -/
def precedenceConnector : connector.Connector :=
  { host := "h",
    generalOption := [request.WithHeader "H" "1"],
    pathOptions := [("/p", [request.WithHeader "H" "2"])],
    webClient := some silentTransport }

/-- The connector of the path-override scenario: path-default options on
`/a` add the query `k=v`. -/
def overrideConnector : connector.Connector :=
  { host := "h",
    pathOptions := [("/a", [request.WithQuery "k" "v"])],
    webClient := some silentTransport }

/-- A legacy responder whose default handler reports an error, to show the
legacy dispatcher's nil-response branch ignores it. -/
def legacyDefaultResponder : response.Responder :=
  { defResponder := some (fun _ => some "default invoked") }

/-- A dummy already-built request, used to exercise `connector.Do`. -/
def dummyRequest : request.Request :=
  { method := "GET", url := "http://h", headers := [], hasContext := false, body := none }

/-- A 404 response with an empty body. -/
def notFoundResponse : connector.HttpResponse := { statusCode := 404, body := "" }

/-- A legacy responder with a handler registered only for status 200. -/
def legacy200Responder : response.Responder :=
  { responders := [(200, fun _ => some "error from the 200 handler")] }

/-- A construction option that always fails. -/
def failingCOpt : connector.COpt := fun _ => .error "boom"

/-- C1, counterexample.  The claim says building substitutes the URL-escaped
string representation of a registered path parameter.  At path `/:id` with
parameter `id = "x?y"` the code substitutes the value verbatim: the built URL
is `http://h/x?y`, whereas the URL-escaped substitution the specification
words (`resolvePathSpec`) yields `/x%3Fy`; the two resolutions differ. -/
theorem c1_counterexample_no_url_escaping :
    request.New "h" [request.WithPath "/:id", request.WithParam "id" "x?y"] =
      .ok { method := "GET", url := "http://h/x?y", headers := [], hasContext := false,
            body := none }
    ∧ resolvePathSpec "/:id" [("id", "x?y")] = "/x%3Fy"
    ∧ request.resolvePath "/:id" [("id", "x?y")] ≠ resolvePathSpec "/:id" [("id", "x?y")] := by
  exact ⟨rfl, by decide, by decide⟩

/-- C1 (amended): for every `:key` token in the path that matches a
registered path parameter, building substitutes the parameter's string
representation verbatim — with no URL escaping — into the URL, and every
`:name` token with no registered parameter is left literal.  In particular
path `/:id` with any parameter value `v` resolves to `/v` exactly (first
conjunct, for all `v`), a path with no registered parameters is left
untouched (second conjunct), and the spec's own examples hold: `id = "123"`
yields a URL containing `/123`, and with no parameter registered the URL
still contains `:id`. -/
theorem c1_amended_verbatim_substitution :
    (∀ v : String, request.resolvePath "/:id" [("id", v)] = "/" ++ v)
    ∧ (∀ p : String, request.resolvePath p [] = p)
    ∧ request.New "h" [request.WithPath "/:id", request.WithParam "id" "123"] =
        .ok { method := "GET", url := "http://h/123", headers := [], hasContext := false,
              body := none }
    ∧ request.New "h" [request.WithPath "/:id"] =
        .ok { method := "GET", url := "http://h/:id", headers := [], hasContext := false,
              body := none } := by
  refine ⟨?_, fun p => rfl, rfl, rfl⟩
  intro v
  obtain ⟨l⟩ := v
  show String.mk ('/' :: (l ++ [])) = String.mk ('/' :: l)
  rw [List.append_nil]

/-- C2, counterexample.  The claim says `DoBuild` on a path with no entry in
the path-default map returns an "unmapped path" error and never invokes the
transport.  On a connector whose path map is empty, `DoBuild "/x"` hands the
built request to the transport — the tracing transport's own error comes
back as the result — so the transport is invoked and no "unmapped path"
error is produced. -/
theorem c2_counterexample_transport_invoked :
    mapGet noPathConnector.pathOptions "/x" = none
    ∧ connector.DoBuild noPathConnector "/x" okResponder [] = some "transport invoked" := by
  exact ⟨rfl, rfl⟩

/-- C2 (amended): `DoBuild` is lenient about unmapped paths — the code picks
variant (b) of the specification's policy choice.  A path absent from the
path-default map is treated exactly as a path registered with an empty
default-option list: the request is still built and sent. -/
theorem c2_amended_unmapped_path_proceeds (c : connector.Connector) (path : String)
    (rd : connector.RespondFn) (opts : List request.Opt)
    (h : mapGet c.pathOptions path = none) :
    connector.DoBuild c path rd opts =
      connector.DoBuild { c with pathOptions := (path, []) :: c.pathOptions } path rd opts := by
  have hopts : connector.reqOptionsOf c path opts =
      connector.reqOptionsOf { c with pathOptions := (path, []) :: c.pathOptions } path opts := by
    unfold connector.reqOptionsOf
    rw [h]
    simp [mapGet, List.find?]
  unfold connector.DoBuild
  rw [hopts]
  rfl

/-- C2, witness for the amended theorem at a concrete connector. -/
theorem c2_witness_unmapped_path :
    connector.DoBuild noPathConnector "/x" okResponder [] =
      connector.DoBuild { noPathConnector with pathOptions := [("/x", [])] } "/x"
        okResponder [] :=
  c2_amended_unmapped_path_proceeds noPathConnector "/x" okResponder [] rfl

/-- C3: `DoBuild` assembles its option list in the order path literal →
general options → path-default options → per-call options (first conjunct,
for every connector, path and per-call list), and consequently, on the
connector whose general option adds header `H=1` and whose path-default
option on `/p` adds `H=2`, building with the per-call option adding `H=3`
yields a request whose `H` header carries exactly the value sequence
`["1", "2", "3"]` (second conjunct). -/
theorem c3_option_order :
    (∀ (c : connector.Connector) (path : String) (opts : List request.Opt),
        connector.reqOptionsOf c path opts =
          [request.WithPath path] ++ c.generalOption ++
            (match mapGet c.pathOptions path with
             | some pdo => pdo
             | none => []) ++ opts)
    ∧ request.New "h"
        (connector.reqOptionsOf precedenceConnector "/p" [request.WithHeader "H" "3"]) =
      .ok { method := "GET", url := "http://h/p", headers := [("H", ["1", "2", "3"])],
            hasContext := false, body := none } := by
  constructor
  · intro c path opts
    unfold connector.reqOptionsOf
    cases hm : mapGet c.pathOptions path <;> simp [hm]
  · rfl

/-- C4, counterexample.  The claim says each of the string, JSON and XML
body-sugar options sets the matching `Content-Type` header.  Applying the
string body option to a fresh builder sets only the body: the header map
stays empty, so no `Content-Type` header is set. -/
theorem c4_counterexample_string_sets_no_content_type :
    request.applyOpts [request.WithString "abc"] (request.initBuilder "h") =
      .ok { hasContext := false, method := "GET", protocol := "http", host := "h",
            path := "", params := [], headers := [], queries := [], body := some "abc" } := by
  rfl

/-- C4 (amended): the JSON and XML body-sugar options set the body to the
marshalled bytes and unconditionally assign the matching `Content-Type`
header, replacing any previously accumulated `Content-Type` values (first
and second conjuncts, for an arbitrary previous value slice `hs`); the
string body option sets only the body and touches no header (third
conjunct); and applying the JSON body option to a builder with an empty
header set yields exactly one `Content-Type: application/json` header and a
body whose bytes equal the JSON-marshalled value (fourth conjunct). -/
theorem c4_amended_body_sugar (r : request.Builder) (bs b : String) (hs : List String) :
    request.WithJson (.ok bs) { r with headers := [("Content-Type", hs)] } =
      .ok { r with headers := [("Content-Type", ["application/json"])], body := some bs }
    ∧ request.WithXml (.ok bs) { r with headers := [("Content-Type", hs)] } =
      .ok { r with headers := [("Content-Type", ["application/xml"])], body := some bs }
    ∧ request.WithString b r = .ok { r with body := some b }
    ∧ request.applyOpts [request.WithJson (.ok bs)] { r with headers := [] } =
      .ok { r with headers := [("Content-Type", ["application/json"])], body := some bs } := by
  exact ⟨rfl, rfl, rfl, rfl⟩

/-- C5, counterexample.  The claim says that with no parser for the status
and no default the dispatch returns the "unhandled"/no-handler error.  The
legacy `response`-package dispatcher, at a 404 response with a handler
registered only for 200 and no default, returns nil — a silent success, not
an error. -/
theorem c5_counterexample_legacy_no_handler_silent :
    response.Respond legacy200Responder (some notFoundResponse) = none := by
  rfl

/-- C5 (amended): the dispatch looks up a parser for the exact status code:
if one is registered it is applied to the response body and its result is
what the dispatch returns (first conjunct); if none is registered but a
default parser exists the default is applied instead (second conjunct); if
neither exists, the `responder`-package dispatcher returns the no-handler
error without consulting any parser (third conjunct), while the legacy
`response`-package dispatcher returns nil — a silent success (fourth
conjunct, for every handler `lf`). -/
theorem c5_amended_dispatch_branches (α : Type) (f d : responder.BodyParser α) (b : String) :
    responder.Respond { responders := [(200, f)], defResponder := some d }
        (some { statusCode := 200, body := b }) =
      { status := 200, body := (f b).1,
        httpResponse := some { statusCode := 200, body := b }, err := (f b).2 }
    ∧ responder.Respond { responders := [(200, f)], defResponder := some d }
        (some { statusCode := 404, body := b }) =
      { status := 404, body := (d b).1,
        httpResponse := some { statusCode := 404, body := b }, err := (d b).2 }
    ∧ responder.Respond ({ responders := [(200, f)] } : responder.Responder α)
        (some { statusCode := 404, body := b }) =
      { status := 0, body := none, httpResponse := none,
        err := some responder.ErrNoResponseHandler }
    ∧ (∀ lf : response.Func,
        response.Respond { responders := [(200, lf)] }
          (some { statusCode := 404, body := b }) = none) := by
  exact ⟨rfl, rfl, rfl, fun lf => rfl⟩

/-- C6, counterexample.  The claim says dispatching a null response always
yields the fixed "no response" error.  The legacy `response`-package
dispatcher — even one configured with a default handler that would report an
error — returns nil on a nil response: no error at all. -/
theorem c6_counterexample_legacy_nil_response_silent :
    response.Respond legacyDefaultResponder none = none := by
  rfl

/-- C6 (amended): dispatching a null/absent response never invokes any
registered parser or the default parser — in both dispatcher packages the
result is a fixed value independent of the whole dispatcher configuration —
but only the `responder` package yields the "no response" error; the legacy
`response` package returns nil. -/
theorem c6_amended_null_response (α : Type) :
    (∀ r : responder.Responder α,
        responder.Respond r none =
          { status := 0, body := none, httpResponse := none,
            err := some responder.ErrNoHttpResponse })
    ∧ (∀ r : response.Responder, response.Respond r none = none) := by
  exact ⟨fun r => rfl, fun r => rfl⟩

/-- C7: when the transport capability reports an error, `Do` returns that
error verbatim, and the result is the same for every responder — the
responder is never invoked. -/
theorem c7_transport_error_short_circuits (c : connector.Connector)
    (t : connector.Transport) (req : request.Request)
    (res : Option connector.HttpResponse) (e : Err)
    (hc : c.webClient = some t) (ht : t req = (res, some e)) :
    ∀ rd : connector.RespondFn, connector.Do c req rd = some e := by
  intro rd
  unfold connector.Do
  rw [hc]
  simp [ht]

/-- C7, witness: the tracing transport's error is returned unchanged. -/
theorem c7_witness_transport_error :
    connector.Do noPathConnector dummyRequest okResponder = some "transport invoked" :=
  c7_transport_error_short_circuits noPathConnector tracingTransport dummyRequest
    none "transport invoked" rfl rfl okResponder

/-- C8, counterexample.  The claim says the dispatch result carries the
original response's status code and the raw response handle in every branch,
including the no-handler outcome.  With no registered parser and no default,
dispatching a 404 response yields a result whose status is the zero value 0
— not 404 — and whose raw-response slot is nil. -/
theorem c8_counterexample_no_handler_zero_status :
    (responder.Respond ({} : responder.Responder Bool) (some notFoundResponse)).status = 0
    ∧ (responder.Respond ({} : responder.Responder Bool) (some notFoundResponse)).httpResponse
        = none
    ∧ notFoundResponse.statusCode = 404
    ∧ (0 : Int) ≠ 404 := by
  exact ⟨rfl, rfl, rfl, by decide⟩

/-- C8 (amended): the dispatch result type carries a status code, a parsed
body, a raw response handle and an error slot in every branch, but only the
exact-status and default-parser branches populate the first three with the
original response's data (first and second conjuncts); the no-handler and
no-response branches return a result with only the error slot populated —
status 0, nil body, nil raw handle (third and fourth conjuncts). -/
theorem c8_amended_result_fields (α : Type) (f d : responder.BodyParser α)
    (s : Int) (b : String) :
    responder.Respond ({ responders := [(s, f)] } : responder.Responder α)
        (some { statusCode := s, body := b }) =
      { status := s, body := (f b).1,
        httpResponse := some { statusCode := s, body := b }, err := (f b).2 }
    ∧ responder.Respond ({ defResponder := some d } : responder.Responder α)
        (some { statusCode := s, body := b }) =
      { status := s, body := (d b).1,
        httpResponse := some { statusCode := s, body := b }, err := (d b).2 }
    ∧ responder.Respond ({} : responder.Responder α) (some { statusCode := s, body := b }) =
      { status := 0, body := none, httpResponse := none,
        err := some responder.ErrNoResponseHandler }
    ∧ responder.Respond ({} : responder.Responder α) none =
      { status := 0, body := none, httpResponse := none,
        err := some responder.ErrNoHttpResponse } := by
  refine ⟨?_, rfl, rfl, rfl⟩
  simp [responder.Respond, mapGet, List.find?]

/-- C9: because `DoBuild` prepends the path option before all other options,
a later `WithPath` option wins: whenever the applied option list ends in
`WithPath p'`, the resulting builder's path is `p'`, whatever came before
(first conjunct); and on the concrete connector whose path-default options
for `/a` add the query `k=v`, `DoBuild "/a"` with the per-call option
`WithPath "/b"` builds the request for `/b` while still applying `/a`'s
path-default options — the lookup path and the built path differ (second
conjunct). -/
theorem c9_path_override :
    (∀ (pre : List request.Opt) (p' : String) (b0 b : request.Builder),
        request.applyOpts (pre ++ [request.WithPath p']) b0 = .ok b → b.path = p')
    ∧ request.New "h" (connector.reqOptionsOf overrideConnector "/a" [request.WithPath "/b"]) =
      .ok { method := "GET", url := "http://h/b?k=v", headers := [], hasContext := false,
            body := none } := by
  constructor
  · intro pre p' b0 b h
    induction pre generalizing b0 with
    | nil =>
      simp [request.applyOpts, request.WithPath] at h
      rw [← h]
    | cons o rest ih =>
      rw [List.cons_append] at h
      unfold request.applyOpts at h
      cases ho : o b0 with
      | error e => rw [ho] at h; exact absurd h (by simp)
      | ok b1 => rw [ho] at h; exact ih b1 h
  · rfl

/-- C9, witness for the override lemma at a concrete option list. -/
theorem c9_witness_path_override :
    ({ request.initBuilder "h" with path := "/b" } : request.Builder).path = "/b" :=
  c9_path_override.1 [] "/b" (request.initBuilder "h")
    { request.initBuilder "h" with path := "/b" } rfl

/-- C10: connector construction is atomic.  If the options split as
`pre ++ o :: post` where every option of `pre` succeeds and `o` fails with
error `e`, then `New` returns exactly `e` together with the zero-value
`Connector{}` — empty host, no general options, no path map, no transport —
and the options after `o` are never applied. -/
theorem c10_atomic_construction (host : String) (t : connector.Transport)
    (pre post : List connector.COpt) (o : connector.COpt)
    (c1 : connector.Connector) (e : Err)
    (hpre : connector.applyCOpts pre { host := host, webClient := some t } = (c1, none))
    (ho : o c1 = .error e) :
    connector.New host t (pre ++ o :: post) = (connector.zeroConnector, some e)
    ∧ connector.zeroConnector.host = ""
    ∧ connector.zeroConnector.generalOption = []
    ∧ connector.zeroConnector.pathOptions = []
    ∧ connector.zeroConnector.webClient = none := by
  have key : ∀ (l : List connector.COpt) (init c' : connector.Connector),
      connector.applyCOpts l init = (c', none) →
      ∀ rest, connector.applyCOpts (l ++ rest) init = connector.applyCOpts rest c' := by
    intro l
    induction l with
    | nil =>
      intro init c' h rest
      simp [connector.applyCOpts] at h
      rw [List.nil_append, h]
    | cons o' l' ih =>
      intro init c' h rest
      rw [List.cons_append]
      unfold connector.applyCOpts at h
      cases ho' : o' init with
      | error e' => rw [ho'] at h; simp at h
      | ok c'' =>
        rw [ho'] at h
        simp only [connector.applyCOpts, ho']
        exact ih c'' c' h rest
  refine ⟨?_, rfl, rfl, rfl, rfl⟩
  unfold connector.New
  rw [key pre _ c1 hpre (o :: post)]
  unfold connector.applyCOpts
  rw [ho]

/-- C10, witness: a failing first option yields the zero connector, the
option's error, and the remaining options are skipped. -/
theorem c10_witness_atomic_construction :
    connector.New "h" silentTransport [failingCOpt, connector.WithGeneral []] =
      (connector.zeroConnector, some "boom")
    ∧ connector.zeroConnector.host = ""
    ∧ connector.zeroConnector.generalOption = []
    ∧ connector.zeroConnector.pathOptions = []
    ∧ connector.zeroConnector.webClient = none :=
  c10_atomic_construction "h" silentTransport [] [connector.WithGeneral []] failingCOpt
    { host := "h", webClient := some silentTransport } "boom" rfl rfl
